import Mathlib

/-!
Shallow embedding of the `gpib` package: a Go wrapper around the linux-gpib
C library.  Native calls (`ibonl`, `ibloc`, `ibwrt`, `ibrd`, `ibdev`) are
modelled as oracle functions supplied to each operation, returning the
status word and the global result registers (`iberr`, `ibcnt`, `ibcntl`)
that the C library would set.  Machine integers are modelled as `Int`
(Go `int` / C `int` values) and raw status-word bit patterns as `Nat`.
-/

namespace Gpib

/-- Errors produced by the package.  The first fourteen constructors are the
decoded kinds of the status decoder table (`getiberr`); `SystemCall` carries
the OS error number taken from the byte-count register (`syscall.Errno(C.ibcnt)`).
`OpenError` is the dedicated, undecoded failure of `Open`
(`"gpib: failed to open the specified device"`). -/
inductive GpibError where
  | SystemCall (errno : Int)
  | NotControllerInCharge
  | NoListeners
  | AddressingFailure
  | InvalidArguments
  | NotSystemController
  | IOAborted
  | BoardNotFound
  | AsyncPending
  | CapabilityMissing
  | Timeout
  | StatusBytesLost
  | ServiceRequestStuck
  | Unknown
  | OpenError
  deriving DecidableEq, Repr

/-- Embedding of `getiberr`: the `switch C.iberr` ladder mapping the auxiliary
error code to an error, with `C.ibcnt` carried into the `syscall.Errno` cases
(codes 0 and 12).  A Go `switch` on an integer is a sequential comparison
against each case label, embedded here as a chain of `if`s. -/
def getiberr (iberr ibcnt : Int) : GpibError :=
  if iberr = 0 then GpibError.SystemCall ibcnt
  else if iberr = 1 then GpibError.NotControllerInCharge
  else if iberr = 2 then GpibError.NoListeners
  else if iberr = 3 then GpibError.AddressingFailure
  else if iberr = 4 then GpibError.InvalidArguments
  else if iberr = 5 then GpibError.NotSystemController
  else if iberr = 6 then GpibError.IOAborted
  else if iberr = 7 then GpibError.BoardNotFound
  else if iberr = 10 then GpibError.AsyncPending
  else if iberr = 11 then GpibError.CapabilityMissing
  else if iberr = 12 then GpibError.SystemCall ibcnt
  else if iberr = 14 then GpibError.Timeout
  else if iberr = 15 then GpibError.StatusBytesLost
  else if iberr = 16 then GpibError.ServiceRequestStuck
  else GpibError.Unknown

/-- The `status` type (`type status int`): the raw status word returned by a
native call, as its bit pattern. -/
abbrev status := Nat

/-- Embedding of `status.Err`: `if s&0x8000 == 0x8000 { return getiberr() };
return nil`.  The auxiliary registers `iberr` and `ibcnt` read by `getiberr`
are passed explicitly. -/
def status.Err (s : status) (iberr ibcnt : Int) : Option GpibError :=
  if Nat.land s 0x8000 = 0x8000 then some (getiberr iberr ibcnt) else none

/-- Outcome of one native library call: the returned status word (`ibsta`, as
its raw bit pattern) and the global registers the library sets alongside it.
`mem` is the content of the native buffer after the call (byte at each
offset), read back by `C.GoBytes` in `Read`. -/
structure NativeResult where
  ibsta : Nat
  iberr : Int
  ibcnt : Int
  ibcntl : Nat
  mem : Nat → Nat

/-- Contexts, as far as this package observes them: `context.Background()`
or a context derived by `context.WithCancel` from a parent. -/
inductive Context where
  | background
  | withCancel (parent : Context)
  deriving DecidableEq, Repr

/-- Embedding of `Options`: `BaseContext` is a `context.Context` field, `nil`
when unset, hence an `Option`. -/
structure Options where
  BaseContext : Option Context

/-- Embedding of `(opts *Options) context()`.  The receiver is a pointer that
may be `nil`, hence `Option Options`: `if opts == nil || opts.BaseContext ==
nil { return context.Background() }; return opts.BaseContext`. -/
def Options.context (opts : Option Options) : Context :=
  match opts with
  | none => Context.background
  | some o =>
    match o.BaseContext with
    | none => Context.background
    | some c => c

/-- Embedding of `Device`.  `ctx` and `descriptor` are the stored fields.
The Go `cancel` field is a closure over the context created by
`context.WithCancel`; its observable state is embedded as `ctxCancelled`
(whether the lifecycle context has been cancelled) together with
`cancelCalls` (how many times the cancel function has been invoked), since a
`context.CancelFunc` is idempotent: invocations after the first do not change
the context. -/
structure Device where
  ctx : Context
  cancelCalls : Nat
  ctxCancelled : Bool
  closed : Bool
  descriptor : Int
  deriving DecidableEq, Repr

/-- Embedding of `Device.Close`.  The native `C.ibonl(d.descriptor, 0)` call
is the oracle `ibonl`, mapping the descriptor to the native outcome.  Returns
the error result, the device state afterwards, and how many native release
calls were performed (0 or 1). -/
def Device.Close (ibonl : Int → NativeResult) (d : Device) :
    Option GpibError × Device × Nat :=
  if d.closed then (none, d, 0)
  else
    let d1 : Device :=
      { d with ctxCancelled := true, cancelCalls := d.cancelCalls + 1 }
    let nr := ibonl d1.descriptor
    match status.Err nr.ibsta nr.iberr nr.ibcnt with
    | some e => (some e, d1, 1)
    | none => (none, { d1 with closed := true }, 1)

/-- Embedding of `Device.Local`: `rv := C.ibloc(d.descriptor); return
status(rv).Err()`.  Returns the error result and the device afterwards. -/
def Device.Local (ibloc : Int → NativeResult) (d : Device) :
    Option GpibError × Device :=
  let nr := ibloc d.descriptor
  (status.Err nr.ibsta nr.iberr nr.ibcnt, d)

/-- Embedding of `Device.Write`.  The oracle `ibwrt` models
`C.ibwrt(d.descriptor, cb, C.long(len(buf)))` on the marshalled buffer.
Returns `(bytesWritten, error, device afterwards)`: `(0, err, d)` on decode
error, `(len(buf), nil, d)` on success. -/
def Device.Write (ibwrt : Int → List Nat → NativeResult) (d : Device)
    (buf : List Nat) : Nat × Option GpibError × Device :=
  let nr := ibwrt d.descriptor buf
  match status.Err nr.ibsta nr.iberr nr.ibcnt with
  | some e => (0, some e, d)
  | none => (buf.length, none, d)

/-- Go `copy(dst, src)`: copies `min (length dst) (length src)` elements from
the front of `src` over the front of `dst` and returns that count. -/
def goCopy (dst src : List Nat) : Nat × List Nat :=
  let n := min dst.length src.length
  (n, src.take n ++ dst.drop n)

/-- Embedding of `Device.Read`.  The oracle `ibrd` models
`C.ibrd(d.descriptor, cbuf, C.long(cbuflen))` where `cbuflen = len(buf)`;
after the call the native buffer holds `nr.mem` and the library reports
`nr.ibcntl` bytes received.  `C.GoBytes(cbuf, C.int(leng))` reads exactly
`leng` bytes from the native buffer; `copy` then moves
`min (len buf) leng` of them into the caller's buffer.  Returns
`(bytesRead, caller buffer afterwards, error, device afterwards)`. -/
def Device.Read (ibrd : Int → Nat → NativeResult) (d : Device)
    (buf : List Nat) : Nat × List Nat × Option GpibError × Device :=
  let cbuflen := buf.length
  let nr := ibrd d.descriptor cbuflen
  match status.Err nr.ibsta nr.iberr nr.ibcnt with
  | some e => (0, buf, some e, d)
  | none =>
    let leng := nr.ibcntl
    let goBytes := (List.range leng).map nr.mem
    let r := goCopy buf goBytes
    (r.1, r.2, none, d)

/-- Embedding of `Open`.  The oracle `ibdev` models
`C.ibdev(board, pad, sad, 0, 0, 0)` returning the descriptor.  A cancellable
context is derived from the options' base context; if the descriptor is the
sentinel `-1`, `Open` fails with the dedicated open error; otherwise a
`Device` is returned whose `closed` flag is the Go zero value `false`. -/
def Open (ibdev : Int → Int → Int → Int → Int → Int → Int)
    (board pad sad : Int) (opts : Option Options) : Except GpibError Device :=
  let ctx := Context.withCancel (Options.context opts)
  let desc := ibdev board pad sad 0 0 0
  if desc = -1 then Except.error GpibError.OpenError
  else Except.ok
    { ctx := ctx, cancelCalls := 0, ctxCancelled := false,
      closed := false, descriptor := desc }

/-- One operation of the public surface of an open `Device`, for reasoning
about sequences of calls. -/
inductive Op where
  | close
  | write (buf : List Nat)
  | read (buf : List Nat)
  | localControl
  deriving Repr

/-- Apply one operation to a device, with `nr` the outcome of the native call
the operation makes (each operation performs at most one). -/
def applyOp (nr : NativeResult) (d : Device) : Op → Device
  | Op.close => (Device.Close (fun _ => nr) d).2.1
  | Op.write buf => (Device.Write (fun _ _ => nr) d buf).2.2
  | Op.read buf => (Device.Read (fun _ _ => nr) d buf).2.2.2
  | Op.localControl => (Device.Local (fun _ => nr) d).2

/-- Run a sequence of operations, the `n`-th native call answered by
`env n`; returns the trace of device states after each operation. -/
def runOps (env : Nat → NativeResult) (d : Device) : List Op → List Device
  | [] => []
  | op :: rest =>
    let d1 := applyOp (env 0) d op
    d1 :: runOps (fun n => env (n + 1)) d1 rest

/-- Fixture: a native outcome whose status word has bit 15 set, with
auxiliary code 1. -/
def errNative : NativeResult :=
  { ibsta := 0x8000, iberr := 1, ibcnt := 0, ibcntl := 0, mem := fun _ => 0 }

/-- Fixture: a native outcome whose status word has bit 15 clear. -/
def okNative : NativeResult :=
  { ibsta := 0x0100, iberr := 0, ibcnt := 0, ibcntl := 0, mem := fun _ => 0 }

/-- Fixture: an open device as `Open` would return it. -/
def dev0 : Device :=
  { ctx := Context.withCancel Context.background, cancelCalls := 0,
    ctxCancelled := false, closed := false, descriptor := 3 }

/-- Number of `false → true` transitions of the cancelled flag of the
lifecycle context along a trace of device states. -/
def cancelTransitions : List Device → Nat
  | a :: b :: rest =>
    (if a.ctxCancelled = false ∧ b.ctxCancelled = true then 1 else 0) +
      cancelTransitions (b :: rest)
  | _ => 0

/-- C1: if bit 15 of the status word is clear, `status.Err` returns success
(`nil`), regardless of the auxiliary code, of the byte-count register and of
every other bit of the status word. -/
theorem C1_bit15_clear_success (s : status) (iberr ibcnt : Int)
    (h : Nat.testBit s 15 = false) :
    status.Err s iberr ibcnt = none := by
  have h2 := Nat.and_two_pow s 15
  rw [h] at h2
  simp only [Bool.toNat_false, Nat.zero_mul] at h2
  unfold status.Err
  have hl : Nat.land s 0x8000 = 0 := by
    simpa using h2
  rw [hl]
  simp

theorem C1_witness :
    Nat.testBit 0x7fff 15 = false ∧ status.Err 0x7fff 3 5 = none :=
  ⟨by decide, C1_bit15_clear_success 0x7fff 3 5 (by decide)⟩

/-- Auxiliary codes outside the table of the `switch` ladder fall through to
the default branch, decoding to `Unknown`. -/
theorem getiberr_default (iberr ibcnt : Int)
    (hmem : iberr ∉
      ([0, 1, 2, 3, 4, 5, 6, 7, 10, 11, 12, 14, 15, 16] : List Int)) :
    getiberr iberr ibcnt = GpibError.Unknown := by
  simp only [List.mem_cons, List.not_mem_nil, or_false, not_or] at hmem
  obtain ⟨h0, h1, h2, h3, h4, h5, h6, h7, h10, h11, h12, h14, h15, h16⟩ :=
    hmem
  simp [getiberr, h0, h1, h2, h3, h4, h5, h6, h7, h10, h11, h12, h14, h15,
    h16]

/-- C2: for every status word with bit 15 set, the decoder maps the auxiliary
code through the table (0 and 12 to `SystemCall` wrapping the byte-count
register; 1 `NotControllerInCharge`; 2 `NoListeners`; 3 `AddressingFailure`;
4 `InvalidArguments`; 5 `NotSystemController`; 6 `IOAborted`;
7 `BoardNotFound`; 10 `AsyncPending`; 11 `CapabilityMissing`; 14 `Timeout`;
15 `StatusBytesLost`; 16 `ServiceRequestStuck`), and every code outside the
table decodes to `Unknown`; `getiberr` is a total function, so no input
raises an unhandled fault. -/
theorem C2_decoder_table (s : status) (iberr ibcnt : Int)
    (h : Nat.testBit s 15 = true) :
    status.Err s iberr ibcnt = some (getiberr iberr ibcnt) ∧
    getiberr 0 ibcnt = GpibError.SystemCall ibcnt ∧
    getiberr 1 ibcnt = GpibError.NotControllerInCharge ∧
    getiberr 2 ibcnt = GpibError.NoListeners ∧
    getiberr 3 ibcnt = GpibError.AddressingFailure ∧
    getiberr 4 ibcnt = GpibError.InvalidArguments ∧
    getiberr 5 ibcnt = GpibError.NotSystemController ∧
    getiberr 6 ibcnt = GpibError.IOAborted ∧
    getiberr 7 ibcnt = GpibError.BoardNotFound ∧
    getiberr 10 ibcnt = GpibError.AsyncPending ∧
    getiberr 11 ibcnt = GpibError.CapabilityMissing ∧
    getiberr 12 ibcnt = GpibError.SystemCall ibcnt ∧
    getiberr 14 ibcnt = GpibError.Timeout ∧
    getiberr 15 ibcnt = GpibError.StatusBytesLost ∧
    getiberr 16 ibcnt = GpibError.ServiceRequestStuck ∧
    (iberr ∉ ([0, 1, 2, 3, 4, 5, 6, 7, 10, 11, 12, 14, 15, 16] : List Int) →
      getiberr iberr ibcnt = GpibError.Unknown) := by
  refine ⟨?_, rfl, rfl, rfl, rfl, rfl, rfl, rfl, rfl, rfl, rfl, rfl, rfl,
    rfl, rfl, ?_⟩
  · have h2 := Nat.and_two_pow s 15
    rw [h] at h2
    simp only [Bool.toNat_true, Nat.one_mul] at h2
    unfold status.Err
    have hl : Nat.land s 0x8000 = 0x8000 := by
      simpa using h2
    rw [hl]
    simp
  · exact getiberr_default iberr ibcnt

theorem C2_witness :
    status.Err 0x8000 2 0 = some GpibError.NoListeners ∧
    status.Err 0x8000 99 0 = some GpibError.Unknown :=
  ⟨((C2_decoder_table 0x8000 2 0 (by decide)).1).trans (by rfl),
    ((C2_decoder_table 0x8000 99 0 (by decide)).1).trans
      (by rw [(C2_decoder_table 0x8000 99 0 (by decide)).2.2.2.2.2.2.2.2.2.2.2.2.2.2.2 (by decide)])⟩

/-- C3: `Close` on a device whose `closed` flag is already set returns
success, performs no native release call, and leaves the device state
unchanged. -/
theorem C3_close_idempotent (ibonl : Int → NativeResult) (d : Device)
    (h : d.closed = true) :
    Device.Close ibonl d = (none, d, 0) := by
  unfold Device.Close
  simp [h]

theorem C3_witness :
    Device.Close (fun _ => errNative) { dev0 with closed := true } =
      (none, { dev0 with closed := true }, 0) :=
  C3_close_idempotent (fun _ => errNative) { dev0 with closed := true } rfl

/-- C4: a `Close` on an unclosed device whose native release decodes to an
error returns that error and leaves `closed` false, so that a subsequent
`Close` performs the native release again; and `closed` becomes true only
when the release decodes to success. -/
theorem C4_close_failure (ibonl ibonl2 : Int → NativeResult) (d : Device)
    (e : GpibError) (h : d.closed = false)
    (he : status.Err (ibonl d.descriptor).ibsta (ibonl d.descriptor).iberr
      (ibonl d.descriptor).ibcnt = some e) :
    (Device.Close ibonl d).1 = some e ∧
    (Device.Close ibonl d).2.1.closed = false ∧
    (Device.Close ibonl2 (Device.Close ibonl d).2.1).2.2 = 1 ∧
    (∀ (g : Int → NativeResult) (d' : Device), d'.closed = false →
      (Device.Close g d').2.1.closed = true →
      status.Err (g d'.descriptor).ibsta (g d'.descriptor).iberr
        (g d'.descriptor).ibcnt = none) := by
  refine ⟨?_, ?_, ?_, ?_⟩
  · unfold Device.Close
    simp [h, he]
  · unfold Device.Close
    simp [h, he]
  · unfold Device.Close
    simp only [h, he, Bool.false_eq_true, if_false]
    split <;> rfl
  · intro g d' hc hclosed
    unfold Device.Close at hclosed
    rw [if_neg (by simp [hc])] at hclosed
    rcases hst : status.Err (g d'.descriptor).ibsta (g d'.descriptor).iberr
      (g d'.descriptor).ibcnt with _ | e'
    · rfl
    · simp only [hst] at hclosed
      rw [hc] at hclosed
      exact absurd hclosed (by simp)

theorem C4_witness :
    (Device.Close (fun _ => errNative) dev0).1 =
      some GpibError.NotControllerInCharge ∧
    (Device.Close (fun _ => errNative) dev0).2.1.closed = false ∧
    (Device.Close (fun _ => okNative)
      (Device.Close (fun _ => errNative) dev0).2.1).2.2 = 1 :=
  let r := C4_close_failure (fun _ => errNative) (fun _ => okNative) dev0
    GpibError.NotControllerInCharge rfl (by rfl)
  ⟨r.1, r.2.1, r.2.2.1⟩

/-- Operations other than `Close` never touch the device state: `Write`,
`Read` and `Local` return the receiver unchanged. -/
theorem applyOp_of_ne_close (nr : NativeResult) (d : Device) (op : Op)
    (h : op ≠ Op.close) : applyOp nr d op = d := by
  cases op with
  | close => exact absurd rfl h
  | write buf =>
    simp only [applyOp, Device.Write]
    split <;> rfl
  | read buf =>
    simp only [applyOp, Device.Read]
    split <;> rfl
  | localControl => rfl

/-- Once the lifecycle context is cancelled it stays cancelled under every
operation. -/
theorem ctxCancelled_mono (nr : NativeResult) (d : Device) (op : Op)
    (h : d.ctxCancelled = true) : (applyOp nr d op).ctxCancelled = true := by
  cases op with
  | close =>
    simp only [applyOp, Device.Close]
    split
    · exact h
    · split <;> rfl
  | write buf =>
    rw [applyOp_of_ne_close nr d _ (by simp)]
    exact h
  | read buf =>
    rw [applyOp_of_ne_close nr d _ (by simp)]
    exact h
  | localControl =>
    rw [applyOp_of_ne_close nr d _ (by simp)]
    exact h

/-- A trace that starts with the lifecycle context already cancelled shows no
further cancellation transition. -/
theorem cancelTransitions_of_cancelled (ops : List Op) :
    ∀ (env : Nat → NativeResult) (d : Device), d.ctxCancelled = true →
      cancelTransitions (d :: runOps env d ops) = 0 := by
  induction ops with
  | nil => intro env d _; rfl
  | cons op rest ih =>
    intro env d h
    simp only [runOps, cancelTransitions]
    rw [ih (fun n => env (n + 1)) (applyOp (env 0) d op)
      (ctxCancelled_mono (env 0) d op h)]
    simp [h]

/-- Along every trace, the lifecycle context transitions to cancelled at most
once. -/
theorem cancelTransitions_le_one (ops : List Op) :
    ∀ (env : Nat → NativeResult) (d : Device),
      cancelTransitions (d :: runOps env d ops) ≤ 1 := by
  induction ops with
  | nil => intro env d; simp [runOps, cancelTransitions]
  | cons op rest ih =>
    intro env d
    simp only [runOps, cancelTransitions]
    cases h1 : (applyOp (env 0) d op).ctxCancelled with
    | true =>
      rw [cancelTransitions_of_cancelled rest (fun n => env (n + 1))
        (applyOp (env 0) d op) h1]
      split <;> simp
    | false =>
      have := ih (fun n => env (n + 1)) (applyOp (env 0) d op)
      simp only [h1, Bool.false_eq_true, and_false, if_false, Nat.zero_add]
      exact this

/-- C5 counterexample: on a sequence of two `Close` calls where the first
one's native release decodes to an error, the cancel function is invoked
twice in total — the failed `Close` leaves `closed` false, and the retry
runs `d.cancel()` again. -/
theorem C5_counterexample :
    dev0.cancelCalls = 0 ∧
    (runOps (fun _ => errNative) dev0 [Op.close, Op.close]).map
      Device.cancelCalls = [1, 2] := by
  exact ⟨rfl, rfl⟩

/-- C5 amended: over every sequence of operations, the cancel function is
invoked only during `Close` — `Write`, `Read` and `Local` leave the device,
including its context state, unchanged — and, the cancel function being
idempotent, the lifecycle context transitions to the cancelled state at most
once in total, even when failed `Close` calls are retried. -/
theorem C5_cancel_once_amended (env : Nat → NativeResult) (d : Device)
    (ops : List Op) :
    cancelTransitions (d :: runOps env d ops) ≤ 1 ∧
    (∀ (nr : NativeResult) (d' : Device) (op : Op), op ≠ Op.close →
      applyOp nr d' op = d') :=
  ⟨cancelTransitions_le_one ops env d,
    fun nr d' op h => applyOp_of_ne_close nr d' op h⟩

theorem C5_amended_witness :
    cancelTransitions
      (dev0 :: runOps (fun _ => errNative) dev0 [Op.close, Op.close]) ≤ 1 ∧
    applyOp okNative dev0 Op.localControl = dev0 :=
  ⟨(C5_cancel_once_amended (fun _ => errNative) dev0 [Op.close, Op.close]).1,
    (C5_cancel_once_amended (fun _ => errNative) dev0 []).2 okNative dev0
      Op.localControl (by simp)⟩

/-- C6: when `Write` returns success, the reported byte count is exactly the
length of the buffer — a partial transfer is never reported as a successful
short count. -/
theorem C6_write_no_short_count (ibwrt : Int → List Nat → NativeResult)
    (d : Device) (buf : List Nat)
    (h : (Device.Write ibwrt d buf).2.1 = none) :
    (Device.Write ibwrt d buf).1 = buf.length := by
  rcases hst : status.Err (ibwrt d.descriptor buf).ibsta
      (ibwrt d.descriptor buf).iberr (ibwrt d.descriptor buf).ibcnt
    with _ | e
  · simp [Device.Write, hst]
  · simp [Device.Write, hst] at h

theorem C6_witness :
    (Device.Write (fun _ _ => okNative) dev0 [1, 2, 3]).1 = 3 :=
  C6_write_no_short_count (fun _ _ => okNative) dev0 [1, 2, 3] rfl

/-- C7: when the native transfer's status decodes to success, `Read` returns
`min (len buffer) nativeByteCount` without error, copies exactly that many
bytes from the native buffer into the front of the caller's buffer (the
excess beyond the caller's capacity is discarded), returning `len buffer`
when the native count exceeds it and the native count otherwise. -/
theorem C7_read_min_copy (ibrd : Int → Nat → NativeResult) (d : Device)
    (buf : List Nat)
    (h : status.Err (ibrd d.descriptor buf.length).ibsta
      (ibrd d.descriptor buf.length).iberr
      (ibrd d.descriptor buf.length).ibcnt = none) :
    (Device.Read ibrd d buf).1 =
      min buf.length (ibrd d.descriptor buf.length).ibcntl ∧
    (Device.Read ibrd d buf).2.2.1 = none ∧
    (buf.length < (ibrd d.descriptor buf.length).ibcntl →
      (Device.Read ibrd d buf).1 = buf.length) ∧
    ((ibrd d.descriptor buf.length).ibcntl ≤ buf.length →
      (Device.Read ibrd d buf).1 = (ibrd d.descriptor buf.length).ibcntl) ∧
    (Device.Read ibrd d buf).2.1 =
      ((List.range (ibrd d.descriptor buf.length).ibcntl).map
          (ibrd d.descriptor buf.length).mem).take
        (min buf.length (ibrd d.descriptor buf.length).ibcntl) ++
      buf.drop (min buf.length (ibrd d.descriptor buf.length).ibcntl) := by
  have hmain : Device.Read ibrd d buf =
      (min buf.length (ibrd d.descriptor buf.length).ibcntl,
        ((List.range (ibrd d.descriptor buf.length).ibcntl).map
            (ibrd d.descriptor buf.length).mem).take
          (min buf.length (ibrd d.descriptor buf.length).ibcntl) ++
        buf.drop (min buf.length (ibrd d.descriptor buf.length).ibcntl),
        none, d) := by
    simp only [Device.Read, h, goCopy, List.length_map, List.length_range]
  refine ⟨?_, ?_, ?_, ?_, ?_⟩
  · rw [hmain]
  · rw [hmain]
  · intro hlt
    rw [hmain]
    simp only
    omega
  · intro hle
    rw [hmain]
    simp only
    omega
  · rw [hmain]

theorem C7_witness :
    (Device.Read (fun _ _ =>
      { okNative with ibcntl := 5, mem := fun n => n }) dev0 [9, 9]).1 = 2 ∧
    (Device.Read (fun _ _ =>
      { okNative with ibcntl := 5, mem := fun n => n }) dev0 [9, 9]).2.1 =
      [0, 1] ∧
    (Device.Read (fun _ _ =>
      { okNative with ibcntl := 1, mem := fun n => n }) dev0 [9, 9]).1 = 1 :=
  ⟨((C7_read_min_copy (fun _ _ =>
        { okNative with ibcntl := 5, mem := fun n => n }) dev0 [9, 9]
      (by rfl)).2.2.1 (by decide)),
    by
      rw [(C7_read_min_copy (fun _ _ =>
        { okNative with ibcntl := 5, mem := fun n => n }) dev0 [9, 9]
        (by rfl)).2.2.2.2]
      rfl,
    ((C7_read_min_copy (fun _ _ =>
        { okNative with ibcntl := 1, mem := fun n => n }) dev0 [9, 9]
      (by rfl)).2.2.2.1 (by decide))⟩

/-- C8: `Open` fails with the dedicated open error — a kind `getiberr` never
produces — exactly when descriptor acquisition returns the sentinel `-1`;
otherwise it returns a device with `closed = false` whose lifecycle context
is derived from the options' base context, a fresh background context being
used when the options are absent. -/
theorem C8_open_paths (ibdev : Int → Int → Int → Int → Int → Int → Int)
    (board pad sad : Int) (opts : Option Options) :
    (ibdev board pad sad 0 0 0 = -1 →
      Open ibdev board pad sad opts = Except.error GpibError.OpenError) ∧
    (∀ iberr ibcnt : Int, getiberr iberr ibcnt ≠ GpibError.OpenError) ∧
    (ibdev board pad sad 0 0 0 ≠ -1 →
      Open ibdev board pad sad opts = Except.ok
        { ctx := Context.withCancel (Options.context opts), cancelCalls := 0,
          ctxCancelled := false, closed := false,
          descriptor := ibdev board pad sad 0 0 0 }) ∧
    Options.context none = Context.background := by
  refine ⟨?_, ?_, ?_, rfl⟩
  · intro h
    simp [Open, h]
  · intro iberr ibcnt
    by_cases hmem : iberr ∈
      ([0, 1, 2, 3, 4, 5, 6, 7, 10, 11, 12, 14, 15, 16] : List Int)
    · simp only [List.mem_cons, List.not_mem_nil, or_false] at hmem
      rcases hmem with h | h | h | h | h | h | h | h | h | h | h | h | h | h
        <;> subst h <;> simp [getiberr]
    · rw [getiberr_default iberr ibcnt hmem]
      simp
  · intro h
    simp [Open, h]

theorem C8_witness :
    Open (fun _ _ _ _ _ _ => -1) 0 13 0 none =
      Except.error GpibError.OpenError ∧
    Open (fun _ _ _ _ _ _ => 5) 0 13 0 none = Except.ok
      { ctx := Context.withCancel Context.background, cancelCalls := 0,
        ctxCancelled := false, closed := false, descriptor := 5 } :=
  ⟨(C8_open_paths (fun _ _ _ _ _ _ => -1) 0 13 0 none).1 rfl,
    (C8_open_paths (fun _ _ _ _ _ _ => 5) 0 13 0 none).2.2.1 (by decide)⟩

/-- C9: `Local` makes its single native call, passes the resulting status
word through the status decoder, returns that result, and leaves every field
of the device unchanged. -/
theorem C9_local_frame (ibloc : Int → NativeResult) (d : Device) :
    Device.Local ibloc d =
      (status.Err (ibloc d.descriptor).ibsta (ibloc d.descriptor).iberr
        (ibloc d.descriptor).ibcnt, d) := rfl

/-- C10: whenever `Write` or `Read` returns an error, the reported byte
count is exactly 0, and neither operation modifies any field of the
device. -/
theorem C10_error_zero_count (ibwrt : Int → List Nat → NativeResult)
    (ibrd : Int → Nat → NativeResult) (d : Device) (wbuf rbuf : List Nat)
    (ew er : GpibError)
    (hw : (Device.Write ibwrt d wbuf).2.1 = some ew)
    (hr : (Device.Read ibrd d rbuf).2.2.1 = some er) :
    (Device.Write ibwrt d wbuf).1 = 0 ∧
    (Device.Write ibwrt d wbuf).2.2 = d ∧
    (Device.Read ibrd d rbuf).1 = 0 ∧
    (Device.Read ibrd d rbuf).2.2.2 = d := by
  refine ⟨?_, ?_, ?_, ?_⟩
  · rcases hst : status.Err (ibwrt d.descriptor wbuf).ibsta
        (ibwrt d.descriptor wbuf).iberr (ibwrt d.descriptor wbuf).ibcnt
      with _ | e
    · simp [Device.Write, hst] at hw
    · simp [Device.Write, hst]
  · simp only [Device.Write]
    split <;> rfl
  · rcases hst : status.Err (ibrd d.descriptor rbuf.length).ibsta
        (ibrd d.descriptor rbuf.length).iberr
        (ibrd d.descriptor rbuf.length).ibcnt
      with _ | e
    · simp [Device.Read, hst] at hr
    · simp [Device.Read, hst]
  · simp only [Device.Read]
    split <;> rfl

theorem C10_witness :
    (Device.Write (fun _ _ => errNative) dev0 [1]).1 = 0 ∧
    (Device.Write (fun _ _ => errNative) dev0 [1]).2.2 = dev0 ∧
    (Device.Read (fun _ _ => errNative) dev0 [1]).1 = 0 ∧
    (Device.Read (fun _ _ => errNative) dev0 [1]).2.2.2 = dev0 :=
  C10_error_zero_count (fun _ _ => errNative) (fun _ _ => errNative) dev0
    [1] [1] GpibError.NotControllerInCharge GpibError.NotControllerInCharge
    rfl rfl

end Gpib
